import Mathlib

/-!
Shallow embedding of the order-fulfillment pipeline from
`async-evolution-patterns` (src/callback-hell.ts, src/callback-hell-solution.ts,
src/unnamed/part_001, types in src/unnamed/part_000).

Modelling conventions:
* TS `number` prices are modelled in integer cents (49.99 ↦ 4999); quantities are `Nat`.
* Every service stub is a timer that either fails (the `Math.random() < 0.1` branch)
  or produces its fixed value.  Randomness is replaced by explicit parameters:
  a failure flag per step, plus the random payment-id suffix and tracking number.
* A pipeline variant is translated as a pure function from a record of service
  oracles (one field per service function, taking the same arguments as in the
  source) to `Except errorMessage successString`.  The traced versions also
  return the list of service invocations, with their arguments, in order.
* The `if (!user)`-style null guards of callback-hell.ts are unreachable here
  because an `Except.ok` always carries a value, matching the typed stubs which
  always pass a result on the success path.  The boolean guards
  (`if (!isAvailable)`, `if (!emailSent)`) are real and are translated.
-/

namespace AsyncEvolution

/-- src/unnamed/part_000: `interface User`. -/
structure User where
  id : String
  name : String
  email : String
deriving DecidableEq, Repr

/-- src/unnamed/part_000: `Order["status"]` string union. -/
inductive OrderStatus where
  | pending
  | processing
  | shipped
  | delivered
  | cancelled
deriving DecidableEq, Repr

/-- src/unnamed/part_000: the `{ productId; quantity }` items of an order. -/
structure OrderItem where
  productId : String
  quantity : Nat
deriving DecidableEq, Repr

/-- src/unnamed/part_000: `interface Order` (the optional `paymentId` is never
written by any variant and is omitted). -/
structure Order where
  id : String
  userId : String
  products : List OrderItem
  status : OrderStatus
deriving DecidableEq, Repr

/-- src/unnamed/part_000: `interface Product`; `price` in integer cents. -/
structure Product where
  id : String
  name : String
  price : Nat
  stock : Nat
deriving DecidableEq, Repr

/-- src/unnamed/part_000: `interface Payment`; `amount` in integer cents. -/
structure Payment where
  id : String
  orderId : String
  amount : Nat
  status : String
deriving DecidableEq, Repr

/-- src/unnamed/part_000: `interface ShippingDetails` (`trackingNumber` optional). -/
structure ShippingDetails where
  orderId : String
  address : String
  trackingNumber : Option String
deriving DecidableEq, Repr

/-- JS template interpolation of a possibly-undefined tracking number:
`some s` prints as `s`, `none` as the string "undefined". -/
def trackingStr : Option String → String
  | some s => s
  | none => "undefined"

/-- The nine declared step occurrences of every pipeline variant, in order. -/
inductive StepName where
  | fetchUser
  | fetchOrders
  | fetchProduct
  | checkStock
  | pay
  | updateProcessing
  | ship
  | updateShipped
  | notify
deriving DecidableEq, Repr

/-- A recorded service invocation: the step occurrence together with the exact
arguments the pipeline passed to the service. -/
inductive StepCall where
  | fetchUser (userId : String)
  | fetchOrders (userId : String)
  | fetchProduct (productId : String)
  | checkStock (product : Product) (quantity : Nat)
  | pay (order : Order) (amount : Nat)
  | updateProcessing (orderId : String)
  | ship (order : Order) (address : String)
  | updateShipped (orderId : String)
  | notify (email : String) (order : Order) (shipping : ShippingDetails)
deriving DecidableEq, Repr

/-- Forget the arguments of a recorded invocation. -/
def StepCall.name : StepCall → StepName
  | .fetchUser _ => .fetchUser
  | .fetchOrders _ => .fetchOrders
  | .fetchProduct _ => .fetchProduct
  | .checkStock _ _ => .checkStock
  | .pay _ _ => .pay
  | .updateProcessing _ => .updateProcessing
  | .ship _ _ => .ship
  | .updateShipped _ => .updateShipped
  | .notify _ _ _ => .notify

/-- The declared order of the nine steps. -/
def declaredOrder : List StepName :=
  [.fetchUser, .fetchOrders, .fetchProduct, .checkStock, .pay,
   .updateProcessing, .ship, .updateShipped, .notify]

/-- Service oracles for the callback layer (src/callback-hell.ts) and the
promise layer (src/callback-hell-solution.ts): one field per service function,
same arguments as in the source, result either an error message or a value. -/
structure Services where
  getUserById : String → Except String User
  getOrdersByUser : String → Except String (List Order)
  getProductDetails : String → Except String Product
  checkStock : Product → Nat → Except String Bool
  processPayment : Order → Nat → Except String Payment
  updateOrderStatus : String → OrderStatus → Except String Order
  createShipment : Order → String → Except String ShippingDetails
  sendOrderConfirmation : String → Order → ShippingDetails → Except String Bool

/-- src/callback-hell.ts `processOrder`, traced: the continuation-nested
pipeline, returning the final callback's argument and the list of service
invocations in order.  Every `return finalCallback(err)` branch is an
`Except.error`; the success leaf is the source's confirmation string
(note: it uses `shippedOrder.id` and has no tracking number). -/
def processOrderT (S : Services) (userId productId : String) (quantity : Nat)
    (address : String) : Except String String × List StepCall :=
  match S.getUserById userId with
  | .error e => (.error e, [.fetchUser userId])
  | .ok user =>
    match S.getOrdersByUser userId with
    | .error e => (.error e, [.fetchUser userId, .fetchOrders userId])
    | .ok orders =>
      match orders with
      | [] => (.error "No orders found", [.fetchUser userId, .fetchOrders userId])
      | currentOrder :: _ =>
        match S.getProductDetails productId with
        | .error e =>
            (.error e,
             [.fetchUser userId, .fetchOrders userId, .fetchProduct productId])
        | .ok product =>
          match S.checkStock product quantity with
          | .error e =>
              (.error e,
               [.fetchUser userId, .fetchOrders userId, .fetchProduct productId,
                .checkStock product quantity])
          | .ok isAvailable =>
            if !isAvailable then
              (.error "Product out of stock",
               [.fetchUser userId, .fetchOrders userId, .fetchProduct productId,
                .checkStock product quantity])
            else
              match S.processPayment currentOrder (product.price * quantity) with
              | .error e =>
                  (.error e,
                   [.fetchUser userId, .fetchOrders userId, .fetchProduct productId,
                    .checkStock product quantity,
                    .pay currentOrder (product.price * quantity)])
              | .ok _payment =>
                match S.updateOrderStatus currentOrder.id .processing with
                | .error e =>
                    (.error e,
                     [.fetchUser userId, .fetchOrders userId, .fetchProduct productId,
                      .checkStock product quantity,
                      .pay currentOrder (product.price * quantity),
                      .updateProcessing currentOrder.id])
                | .ok updatedOrder =>
                  match S.createShipment updatedOrder address with
                  | .error e =>
                      (.error e,
                       [.fetchUser userId, .fetchOrders userId, .fetchProduct productId,
                        .checkStock product quantity,
                        .pay currentOrder (product.price * quantity),
                        .updateProcessing currentOrder.id,
                        .ship updatedOrder address])
                  | .ok shipping =>
                    match S.updateOrderStatus updatedOrder.id .shipped with
                    | .error e =>
                        (.error e,
                         [.fetchUser userId, .fetchOrders userId, .fetchProduct productId,
                          .checkStock product quantity,
                          .pay currentOrder (product.price * quantity),
                          .updateProcessing currentOrder.id,
                          .ship updatedOrder address,
                          .updateShipped updatedOrder.id])
                    | .ok shippedOrder =>
                      match S.sendOrderConfirmation user.email shippedOrder shipping with
                      | .error e =>
                          (.error e,
                           [.fetchUser userId, .fetchOrders userId, .fetchProduct productId,
                            .checkStock product quantity,
                            .pay currentOrder (product.price * quantity),
                            .updateProcessing currentOrder.id,
                            .ship updatedOrder address,
                            .updateShipped updatedOrder.id,
                            .notify user.email shippedOrder shipping])
                      | .ok emailSent =>
                        (if !emailSent then
                          .error "Email confirmation failed"
                         else
                          .ok ("Order " ++ shippedOrder.id ++
                               " processed successfully and shipped to " ++ address),
                         [.fetchUser userId, .fetchOrders userId, .fetchProduct productId,
                          .checkStock product quantity,
                          .pay currentOrder (product.price * quantity),
                          .updateProcessing currentOrder.id,
                          .ship updatedOrder address,
                          .updateShipped updatedOrder.id,
                          .notify user.email shippedOrder shipping])

/-- src/callback-hell.ts `processOrder`, outcome only. -/
def processOrder (S : Services) (userId productId : String) (quantity : Nat)
    (address : String) : Except String String :=
  (processOrderT S userId productId quantity address).1

/-- src/callback-hell-solution.ts `processOrderWithPromises`, traced: the
promise chain with its mutable outer bindings (`userData`, `currentOrder`,
`productData`, `updatedOrder`, `shippingDetails`) rendered as `let`s.  A
rejected promise short-circuits the chain; `throw` inside a `.then` is a
rejection.  The success leaf uses `currentOrder.id`, no tracking number, and
ignores the boolean result of `sendOrderConfirmationPromise`. -/
def processOrderWithPromisesT (S : Services) (userId productId : String)
    (quantity : Nat) (address : String) : Except String String × List StepCall :=
  match S.getUserById userId with
  | .error e => (.error e, [.fetchUser userId])
  | .ok userData =>
    match S.getOrdersByUser userId with
    | .error e => (.error e, [.fetchUser userId, .fetchOrders userId])
    | .ok orders =>
      match orders with
      | [] => (.error "No orders found", [.fetchUser userId, .fetchOrders userId])
      | currentOrder :: _ =>
        match S.getProductDetails productId with
        | .error e =>
            (.error e,
             [.fetchUser userId, .fetchOrders userId, .fetchProduct productId])
        | .ok productData =>
          match S.checkStock productData quantity with
          | .error e =>
              (.error e,
               [.fetchUser userId, .fetchOrders userId, .fetchProduct productId,
                .checkStock productData quantity])
          | .ok isAvailable =>
            if !isAvailable then
              (.error "Product out of stock",
               [.fetchUser userId, .fetchOrders userId, .fetchProduct productId,
                .checkStock productData quantity])
            else
              match S.processPayment currentOrder (productData.price * quantity) with
              | .error e =>
                  (.error e,
                   [.fetchUser userId, .fetchOrders userId, .fetchProduct productId,
                    .checkStock productData quantity,
                    .pay currentOrder (productData.price * quantity)])
              | .ok _ =>
                match S.updateOrderStatus currentOrder.id .processing with
                | .error e =>
                    (.error e,
                     [.fetchUser userId, .fetchOrders userId, .fetchProduct productId,
                      .checkStock productData quantity,
                      .pay currentOrder (productData.price * quantity),
                      .updateProcessing currentOrder.id])
                | .ok updatedOrder =>
                  match S.createShipment updatedOrder address with
                  | .error e =>
                      (.error e,
                       [.fetchUser userId, .fetchOrders userId, .fetchProduct productId,
                        .checkStock productData quantity,
                        .pay currentOrder (productData.price * quantity),
                        .updateProcessing currentOrder.id,
                        .ship updatedOrder address])
                  | .ok shippingDetails =>
                    match S.updateOrderStatus updatedOrder.id .shipped with
                    | .error e =>
                        (.error e,
                         [.fetchUser userId, .fetchOrders userId, .fetchProduct productId,
                          .checkStock productData quantity,
                          .pay currentOrder (productData.price * quantity),
                          .updateProcessing currentOrder.id,
                          .ship updatedOrder address,
                          .updateShipped updatedOrder.id])
                    | .ok shippedOrder =>
                      match S.sendOrderConfirmation userData.email shippedOrder shippingDetails with
                      | .error e =>
                          (.error e,
                           [.fetchUser userId, .fetchOrders userId, .fetchProduct productId,
                            .checkStock productData quantity,
                            .pay currentOrder (productData.price * quantity),
                            .updateProcessing currentOrder.id,
                            .ship updatedOrder address,
                            .updateShipped updatedOrder.id,
                            .notify userData.email shippedOrder shippingDetails])
                      | .ok _ =>
                        (.ok ("Order " ++ currentOrder.id ++
                              " processed successfully and shipped to " ++ address),
                         [.fetchUser userId, .fetchOrders userId, .fetchProduct productId,
                          .checkStock productData quantity,
                          .pay currentOrder (productData.price * quantity),
                          .updateProcessing currentOrder.id,
                          .ship updatedOrder address,
                          .updateShipped updatedOrder.id,
                          .notify userData.email shippedOrder shippingDetails])

/-- src/callback-hell-solution.ts `processOrderWithPromises`, outcome only. -/
def processOrderWithPromises (S : Services) (userId productId : String)
    (quantity : Nat) (address : String) : Except String String :=
  (processOrderWithPromisesT S userId productId quantity address).1

/-- src/callback-hell-solution.ts `processOrderWithAsyncAwait`, traced: the
same nine awaits in a straight line; the `catch` block logs and rethrows, so a
raised error reaches the caller unchanged.  Success leaf uses
`currentOrder.id`, no tracking number. -/
def processOrderWithAsyncAwaitT (S : Services) (userId productId : String)
    (quantity : Nat) (address : String) : Except String String × List StepCall :=
  match S.getUserById userId with
  | .error e => (.error e, [.fetchUser userId])
  | .ok user =>
    match S.getOrdersByUser userId with
    | .error e => (.error e, [.fetchUser userId, .fetchOrders userId])
    | .ok orders =>
      match orders with
      | [] => (.error "No orders found", [.fetchUser userId, .fetchOrders userId])
      | currentOrder :: _ =>
        match S.getProductDetails productId with
        | .error e =>
            (.error e,
             [.fetchUser userId, .fetchOrders userId, .fetchProduct productId])
        | .ok product =>
          match S.checkStock product quantity with
          | .error e =>
              (.error e,
               [.fetchUser userId, .fetchOrders userId, .fetchProduct productId,
                .checkStock product quantity])
          | .ok isAvailable =>
            if !isAvailable then
              (.error "Product out of stock",
               [.fetchUser userId, .fetchOrders userId, .fetchProduct productId,
                .checkStock product quantity])
            else
              match S.processPayment currentOrder (product.price * quantity) with
              | .error e =>
                  (.error e,
                   [.fetchUser userId, .fetchOrders userId, .fetchProduct productId,
                    .checkStock product quantity,
                    .pay currentOrder (product.price * quantity)])
              | .ok _ =>
                match S.updateOrderStatus currentOrder.id .processing with
                | .error e =>
                    (.error e,
                     [.fetchUser userId, .fetchOrders userId, .fetchProduct productId,
                      .checkStock product quantity,
                      .pay currentOrder (product.price * quantity),
                      .updateProcessing currentOrder.id])
                | .ok updatedOrder =>
                  match S.createShipment updatedOrder address with
                  | .error e =>
                      (.error e,
                       [.fetchUser userId, .fetchOrders userId, .fetchProduct productId,
                        .checkStock product quantity,
                        .pay currentOrder (product.price * quantity),
                        .updateProcessing currentOrder.id,
                        .ship updatedOrder address])
                  | .ok shipping =>
                    match S.updateOrderStatus updatedOrder.id .shipped with
                    | .error e =>
                        (.error e,
                         [.fetchUser userId, .fetchOrders userId, .fetchProduct productId,
                          .checkStock product quantity,
                          .pay currentOrder (product.price * quantity),
                          .updateProcessing currentOrder.id,
                          .ship updatedOrder address,
                          .updateShipped updatedOrder.id])
                    | .ok shippedOrder =>
                      match S.sendOrderConfirmation user.email shippedOrder shipping with
                      | .error e =>
                          (.error e,
                           [.fetchUser userId, .fetchOrders userId, .fetchProduct productId,
                            .checkStock product quantity,
                            .pay currentOrder (product.price * quantity),
                            .updateProcessing currentOrder.id,
                            .ship updatedOrder address,
                            .updateShipped updatedOrder.id,
                            .notify user.email shippedOrder shipping])
                      | .ok _ =>
                        (.ok ("Order " ++ currentOrder.id ++
                              " processed successfully and shipped to " ++ address),
                         [.fetchUser userId, .fetchOrders userId, .fetchProduct productId,
                          .checkStock product quantity,
                          .pay currentOrder (product.price * quantity),
                          .updateProcessing currentOrder.id,
                          .ship updatedOrder address,
                          .updateShipped updatedOrder.id,
                          .notify user.email shippedOrder shipping])

/-- src/callback-hell-solution.ts `processOrderWithAsyncAwait`, outcome only. -/
def processOrderWithAsyncAwait (S : Services) (userId productId : String)
    (quantity : Nat) (address : String) : Except String String :=
  (processOrderWithAsyncAwaitT S userId productId quantity address).1

/-- src/unnamed/part_001: the closed union `OrderProcessingError` of the five
tagged error classes, each carrying its message. -/
inductive OrderProcessingError where
  | databaseError (message : String)
  | paymentError (message : String)
  | inventoryError (message : String)
  | shippingError (message : String)
  | notificationError (message : String)
deriving DecidableEq, Repr

/-- The `message` field of a tagged error. -/
def OrderProcessingError.message : OrderProcessingError → String
  | .databaseError m => m
  | .paymentError m => m
  | .inventoryError m => m
  | .shippingError m => m
  | .notificationError m => m

/-- Service oracles for the Effect layer (src/unnamed/part_001): the same
service functions, with the tagged error channel of each
`Effect.Effect<_, SomeError>`. -/
structure EffServices where
  getUserById : String → Except OrderProcessingError User
  getOrdersByUser : String → Except OrderProcessingError (List Order)
  getProductDetails : String → Except OrderProcessingError Product
  checkStock : Product → Nat → Except OrderProcessingError Bool
  processPayment : Order → Nat → Except OrderProcessingError Payment
  updateOrderStatus : String → OrderStatus → Except OrderProcessingError Order
  createShipment : Order → String → Except OrderProcessingError ShippingDetails
  sendOrderConfirmation : String → Order → ShippingDetails →
    Except OrderProcessingError Bool

/-- src/unnamed/part_001 `processOrderWithEffectGen`, traced: the
`Effect.gen` pipeline; `yield*` of a failed effect short-circuits; the two
business guards fail with `DatabaseError("No orders found")` and
`InventoryError("Product out of stock")`; the success leaf uses
`currentOrder.id` and appends the tracking number. -/
def processOrderWithEffectGenT (S : EffServices) (userId productId : String)
    (quantity : Nat) (address : String) :
    Except OrderProcessingError String × List StepCall :=
  match S.getUserById userId with
  | .error e => (.error e, [.fetchUser userId])
  | .ok user =>
    match S.getOrdersByUser userId with
    | .error e => (.error e, [.fetchUser userId, .fetchOrders userId])
    | .ok orders =>
      match orders with
      | [] =>
          (.error (.databaseError "No orders found"),
           [.fetchUser userId, .fetchOrders userId])
      | currentOrder :: _ =>
        match S.getProductDetails productId with
        | .error e =>
            (.error e,
             [.fetchUser userId, .fetchOrders userId, .fetchProduct productId])
        | .ok product =>
          match S.checkStock product quantity with
          | .error e =>
              (.error e,
               [.fetchUser userId, .fetchOrders userId, .fetchProduct productId,
                .checkStock product quantity])
          | .ok isAvailable =>
            if !isAvailable then
              (.error (.inventoryError "Product out of stock"),
               [.fetchUser userId, .fetchOrders userId, .fetchProduct productId,
                .checkStock product quantity])
            else
              match S.processPayment currentOrder (product.price * quantity) with
              | .error e =>
                  (.error e,
                   [.fetchUser userId, .fetchOrders userId, .fetchProduct productId,
                    .checkStock product quantity,
                    .pay currentOrder (product.price * quantity)])
              | .ok _payment =>
                match S.updateOrderStatus currentOrder.id .processing with
                | .error e =>
                    (.error e,
                     [.fetchUser userId, .fetchOrders userId, .fetchProduct productId,
                      .checkStock product quantity,
                      .pay currentOrder (product.price * quantity),
                      .updateProcessing currentOrder.id])
                | .ok updatedOrder =>
                  match S.createShipment updatedOrder address with
                  | .error e =>
                      (.error e,
                       [.fetchUser userId, .fetchOrders userId, .fetchProduct productId,
                        .checkStock product quantity,
                        .pay currentOrder (product.price * quantity),
                        .updateProcessing currentOrder.id,
                        .ship updatedOrder address])
                  | .ok shipping =>
                    match S.updateOrderStatus updatedOrder.id .shipped with
                    | .error e =>
                        (.error e,
                         [.fetchUser userId, .fetchOrders userId, .fetchProduct productId,
                          .checkStock product quantity,
                          .pay currentOrder (product.price * quantity),
                          .updateProcessing currentOrder.id,
                          .ship updatedOrder address,
                          .updateShipped updatedOrder.id])
                    | .ok shippedOrder =>
                      match S.sendOrderConfirmation user.email shippedOrder shipping with
                      | .error e =>
                          (.error e,
                           [.fetchUser userId, .fetchOrders userId, .fetchProduct productId,
                            .checkStock product quantity,
                            .pay currentOrder (product.price * quantity),
                            .updateProcessing currentOrder.id,
                            .ship updatedOrder address,
                            .updateShipped updatedOrder.id,
                            .notify user.email shippedOrder shipping])
                      | .ok _ =>
                        (.ok ("Order " ++ currentOrder.id ++
                              " processed successfully and shipped to " ++ address ++
                              " with tracking number " ++
                              trackingStr shipping.trackingNumber),
                         [.fetchUser userId, .fetchOrders userId, .fetchProduct productId,
                          .checkStock product quantity,
                          .pay currentOrder (product.price * quantity),
                          .updateProcessing currentOrder.id,
                          .ship updatedOrder address,
                          .updateShipped updatedOrder.id,
                          .notify user.email shippedOrder shipping])

/-- src/unnamed/part_001 `processOrderWithEffectGen`, outcome only. -/
def processOrderWithEffectGen (S : EffServices) (userId productId : String)
    (quantity : Nat) (address : String) : Except OrderProcessingError String :=
  (processOrderWithEffectGenT S userId productId quantity address).1

/-- src/unnamed/part_001 `processOrderWithPipe`, traced: the
`pipe`/`Effect.flatMap` chain with its mutable outer bindings (`userData`,
`currentOrder`, `productData`, `updatedOrder`, `shippingDetails`) rendered as
`let`s; same guards and success leaf (with tracking number) as the generator
version, the confirmation email going to `userData.email`. -/
def processOrderWithPipeT (S : EffServices) (userId productId : String)
    (quantity : Nat) (address : String) :
    Except OrderProcessingError String × List StepCall :=
  match S.getUserById userId with
  | .error e => (.error e, [.fetchUser userId])
  | .ok userData =>
    match S.getOrdersByUser userId with
    | .error e => (.error e, [.fetchUser userId, .fetchOrders userId])
    | .ok orders =>
      match orders with
      | [] =>
          (.error (.databaseError "No orders found"),
           [.fetchUser userId, .fetchOrders userId])
      | currentOrder :: _ =>
        match S.getProductDetails productId with
        | .error e =>
            (.error e,
             [.fetchUser userId, .fetchOrders userId, .fetchProduct productId])
        | .ok productData =>
          match S.checkStock productData quantity with
          | .error e =>
              (.error e,
               [.fetchUser userId, .fetchOrders userId, .fetchProduct productId,
                .checkStock productData quantity])
          | .ok isAvailable =>
            if !isAvailable then
              (.error (.inventoryError "Product out of stock"),
               [.fetchUser userId, .fetchOrders userId, .fetchProduct productId,
                .checkStock productData quantity])
            else
              match S.processPayment currentOrder (productData.price * quantity) with
              | .error e =>
                  (.error e,
                   [.fetchUser userId, .fetchOrders userId, .fetchProduct productId,
                    .checkStock productData quantity,
                    .pay currentOrder (productData.price * quantity)])
              | .ok _ =>
                match S.updateOrderStatus currentOrder.id .processing with
                | .error e =>
                    (.error e,
                     [.fetchUser userId, .fetchOrders userId, .fetchProduct productId,
                      .checkStock productData quantity,
                      .pay currentOrder (productData.price * quantity),
                      .updateProcessing currentOrder.id])
                | .ok updatedOrder =>
                  match S.createShipment updatedOrder address with
                  | .error e =>
                      (.error e,
                       [.fetchUser userId, .fetchOrders userId, .fetchProduct productId,
                        .checkStock productData quantity,
                        .pay currentOrder (productData.price * quantity),
                        .updateProcessing currentOrder.id,
                        .ship updatedOrder address])
                  | .ok shippingDetails =>
                    match S.updateOrderStatus updatedOrder.id .shipped with
                    | .error e =>
                        (.error e,
                         [.fetchUser userId, .fetchOrders userId, .fetchProduct productId,
                          .checkStock productData quantity,
                          .pay currentOrder (productData.price * quantity),
                          .updateProcessing currentOrder.id,
                          .ship updatedOrder address,
                          .updateShipped updatedOrder.id])
                    | .ok shippedOrder =>
                      match S.sendOrderConfirmation userData.email shippedOrder shippingDetails with
                      | .error e =>
                          (.error e,
                           [.fetchUser userId, .fetchOrders userId, .fetchProduct productId,
                            .checkStock productData quantity,
                            .pay currentOrder (productData.price * quantity),
                            .updateProcessing currentOrder.id,
                            .ship updatedOrder address,
                            .updateShipped updatedOrder.id,
                            .notify userData.email shippedOrder shippingDetails])
                      | .ok _ =>
                        (.ok ("Order " ++ currentOrder.id ++
                              " processed successfully and shipped to " ++ address ++
                              " with tracking number " ++
                              trackingStr shippingDetails.trackingNumber),
                         [.fetchUser userId, .fetchOrders userId, .fetchProduct productId,
                          .checkStock productData quantity,
                          .pay currentOrder (productData.price * quantity),
                          .updateProcessing currentOrder.id,
                          .ship updatedOrder address,
                          .updateShipped updatedOrder.id,
                          .notify userData.email shippedOrder shippingDetails])

/-- src/unnamed/part_001 `processOrderWithPipe`, outcome only. -/
def processOrderWithPipe (S : EffServices) (userId productId : String)
    (quantity : Nat) (address : String) : Except OrderProcessingError String :=
  (processOrderWithPipeT S userId productId quantity address).1

/-- src/unnamed/part_001 `verifyOrderDetailsEffect`: user, first order and
product with the two business guards. -/
def verifyOrderDetailsEffect (S : EffServices) (userId productId : String)
    (quantity : Nat) : Except OrderProcessingError (User × Order × Product) :=
  match S.getUserById userId with
  | .error e => .error e
  | .ok user =>
    match S.getOrdersByUser userId with
    | .error e => .error e
    | .ok orders =>
      match orders with
      | [] => .error (.databaseError "No orders found")
      | order :: _ =>
        match S.getProductDetails productId with
        | .error e => .error e
        | .ok product =>
          match S.checkStock product quantity with
          | .error e => .error e
          | .ok isAvailable =>
            if !isAvailable then .error (.inventoryError "Product out of stock")
            else .ok (user, order, product)

/-- src/unnamed/part_001 `handlePaymentAndUpdateEffect`. -/
def handlePaymentAndUpdateEffect (S : EffServices) (order : Order)
    (amount : Nat) : Except OrderProcessingError Order :=
  match S.processPayment order amount with
  | .error e => .error e
  | .ok _ => S.updateOrderStatus order.id .processing

/-- src/unnamed/part_001 `handleShippingEffect`. -/
def handleShippingEffect (S : EffServices) (order : Order) (address : String)
    (userEmail : String) : Except OrderProcessingError ShippingDetails :=
  match S.createShipment order address with
  | .error e => .error e
  | .ok shipping =>
    match S.updateOrderStatus order.id .shipped with
    | .error e => .error e
    | .ok shippedOrder =>
      match S.sendOrderConfirmation userEmail shippedOrder shipping with
      | .error e => .error e
      | .ok _ => .ok shipping

/-- src/unnamed/part_001 `processOrderModular`: the three modular stages in
sequence, success string with tracking number. -/
def processOrderModular (S : EffServices) (userId productId : String)
    (quantity : Nat) (address : String) : Except OrderProcessingError String :=
  match verifyOrderDetailsEffect S userId productId quantity with
  | .error e => .error e
  | .ok (user, order, product) =>
    match handlePaymentAndUpdateEffect S order (product.price * quantity) with
    | .error e => .error e
    | .ok updatedOrder =>
      match handleShippingEffect S updatedOrder address user.email with
      | .error e => .error e
      | .ok shipping =>
        .ok ("Order " ++ order.id ++
             " processed successfully and shipped to " ++ address ++
             " with tracking number " ++ trackingStr shipping.trackingNumber)

/-- src/unnamed/part_001 `processOrderWithErrorHandling`: `processOrderModular`
behind the five `Effect.catchTag` recoveries (the trailing `catchAll` is
unreachable, every tag being covered); the error channel is `never`, modelled
as `Empty`. -/
def processOrderWithErrorHandling (S : EffServices) (userId productId : String)
    (quantity : Nat) (address : String) : Except Empty String :=
  match processOrderModular S userId productId quantity address with
  | .ok s => .ok s
  | .error (.databaseError m) => .ok ("Database error handled: " ++ m)
  | .error (.paymentError m) => .ok ("Payment error handled: " ++ m)
  | .error (.inventoryError m) => .ok ("Inventory error handled: " ++ m)
  | .error (.shippingError m) => .ok ("Shipping error handled: " ++ m)
  | .error (.notificationError m) => .ok ("Notification error handled: " ++ m)

/-- src/callback-hell.ts `processOrder` with the terminal continuation made
observable: every `return finalCallback(x)` of the source is rendered as the
singleton invocation list `[x]`, so the returned list is, in order, the
sequence of arguments with which `finalCallback` is invoked during the run.
Each service stub invokes its own callback exactly once (one `setTimeout`
body, one `callback(...)` per branch), which the oracle model reflects. -/
def processOrderCalls (S : Services) (userId productId : String)
    (quantity : Nat) (address : String) : List (Except String String) :=
  match S.getUserById userId with
  | .error e => [.error e]
  | .ok user =>
    match S.getOrdersByUser userId with
    | .error e => [.error e]
    | .ok orders =>
      match orders with
      | [] => [.error "No orders found"]
      | currentOrder :: _ =>
        match S.getProductDetails productId with
        | .error e => [.error e]
        | .ok product =>
          match S.checkStock product quantity with
          | .error e => [.error e]
          | .ok isAvailable =>
            if !isAvailable then [.error "Product out of stock"]
            else
              match S.processPayment currentOrder (product.price * quantity) with
              | .error e => [.error e]
              | .ok _ =>
                match S.updateOrderStatus currentOrder.id .processing with
                | .error e => [.error e]
                | .ok updatedOrder =>
                  match S.createShipment updatedOrder address with
                  | .error e => [.error e]
                  | .ok shipping =>
                    match S.updateOrderStatus updatedOrder.id .shipped with
                    | .error e => [.error e]
                    | .ok shippedOrder =>
                      match S.sendOrderConfirmation user.email shippedOrder shipping with
                      | .error e => [.error e]
                      | .ok emailSent =>
                        if !emailSent then [.error "Email confirmation failed"]
                        else
                          [.ok ("Order " ++ shippedOrder.id ++
                                " processed successfully and shipped to " ++ address)]

/-- One forced outcome per step occurrence: the `Math.random() < 0.1` failure
branch of each of the nine stub invocations forced on or off, plus the two
random payloads (the payment-id suffix and the tracking number).  The two
`updateOrderStatus` invocations get separate flags, selected by the `status`
argument, which differs between the two call sites. -/
structure StepOutcomes where
  userFail : Bool
  ordersFail : Bool
  productFail : Bool
  stockFail : Bool
  payFail : Bool
  updateProcessingFail : Bool
  shipFail : Bool
  updateShippedFail : Bool
  notifyFail : Bool
  payId : String
  trackingNum : Nat
deriving DecidableEq, Repr

/-- The fixed user the stubs return: John Doe with the requested id. -/
def stubUser (userId : String) : User :=
  { id := userId, name := "John Doe", email := "john@example.com" }

/-- The fixed singleton order list the stubs return. -/
def stubOrders (userId : String) : List Order :=
  [{ id := "order123", userId := userId,
     products := [{ productId := "prod1", quantity := 2 }],
     status := .pending }]

/-- The single pending order the stubs return, orders head. -/
def stubOrder : Order :=
  { id := "order123", userId := "user123",
    products := [{ productId := "prod1", quantity := 2 }], status := .pending }

/-- The fixed product the stubs return: price 49.99 (4999 cents), stock 10. -/
def stubProduct (productId : String) : Product :=
  { id := productId, name := "Awesome Product", price := 4999, stock := 10 }

/-- The service stubs of src/callback-hell.ts (identical bodies, modulo
promisification, in src/callback-hell-solution.ts), with the random branches
driven by `cfg`.  `checkStock` computes `product.stock >= quantity` on its
success branch; `updateOrderStatus` echoes its arguments into a fixed order
shape; `createShipment` echoes the order id and address and mints tracking
number TRK followed by the random number. -/
def svc (cfg : StepOutcomes) : Services where
  getUserById := fun userId =>
    if cfg.userFail then .error "Database connection failed"
    else .ok (stubUser userId)
  getOrdersByUser := fun userId =>
    if cfg.ordersFail then .error "Failed to retrieve orders"
    else .ok (stubOrders userId)
  getProductDetails := fun productId =>
    if cfg.productFail then .error "Product not found"
    else .ok (stubProduct productId)
  checkStock := fun product quantity =>
    if cfg.stockFail then .error "Inventory system error"
    else .ok (decide (quantity ≤ product.stock))
  processPayment := fun order amount =>
    if cfg.payFail then .error "Payment processing failed"
    else .ok { id := "pay_" ++ cfg.payId, orderId := order.id,
               amount := amount, status := "completed" }
  updateOrderStatus := fun orderId status =>
    if (match status with
        | .processing => cfg.updateProcessingFail
        | _ => cfg.updateShippedFail) then
      .error "Failed to update order status"
    else
      .ok { id := orderId, userId := "user123",
            products := [{ productId := "prod1", quantity := 2 }],
            status := status }
  createShipment := fun order address =>
    if cfg.shipFail then .error "Shipping service unavailable"
    else .ok { orderId := order.id, address := address,
               trackingNumber := some ("TRK" ++ Nat.repr cfg.trackingNum) }
  sendOrderConfirmation := fun _ _ _ =>
    if cfg.notifyFail then .error "Email service down"
    else .ok true

/-- The Effect-layer service stubs of src/unnamed/part_001, with the random
branches driven by the same `cfg`.  Each `Effect.try` catches the tagged error
thrown in its `try` block and rewraps it via its `catch` clause, whose template
literal stringifies the caught error as `name: message`; the resulting wrapped
messages are reproduced verbatim. -/
def effSvc (cfg : StepOutcomes) : EffServices where
  getUserById := fun userId =>
    if cfg.userFail then
      .error (.databaseError
        "Failed to get user: DatabaseError: Database connection failed")
    else .ok (stubUser userId)
  getOrdersByUser := fun userId =>
    if cfg.ordersFail then
      .error (.databaseError
        "Failed to get orders: DatabaseError: Failed to retrieve orders")
    else .ok (stubOrders userId)
  getProductDetails := fun productId =>
    if cfg.productFail then
      .error (.databaseError
        "Failed to get product: DatabaseError: Product not found")
    else .ok (stubProduct productId)
  checkStock := fun product quantity =>
    if cfg.stockFail then
      .error (.inventoryError
        "Failed to check stock: InventoryError: Inventory system error")
    else .ok (decide (quantity ≤ product.stock))
  processPayment := fun order amount =>
    if cfg.payFail then
      .error (.paymentError
        "Failed to process payment: PaymentError: Payment processing failed")
    else .ok { id := "pay_" ++ cfg.payId, orderId := order.id,
               amount := amount, status := "completed" }
  updateOrderStatus := fun orderId status =>
    if (match status with
        | .processing => cfg.updateProcessingFail
        | _ => cfg.updateShippedFail) then
      .error (.databaseError
        "Failed to update order: DatabaseError: Failed to update order status")
    else
      .ok { id := orderId, userId := "user123",
            products := [{ productId := "prod1", quantity := 2 }],
            status := status }
  createShipment := fun order address =>
    if cfg.shipFail then
      .error (.shippingError
        "Failed to create shipment: ShippingError: Shipping service unavailable")
    else .ok { orderId := order.id, address := address,
               trackingNumber := some ("TRK" ++ Nat.repr cfg.trackingNum) }
  sendOrderConfirmation := fun _ _ _ =>
    if cfg.notifyFail then
      .error (.notificationError
        "Failed to send notification: NotificationError: Email service down")
    else .ok true

/-- A forced outcome configuration with no failures. -/
def allOk : StepOutcomes :=
  { userFail := false, ordersFail := false, productFail := false,
    stockFail := false, payFail := false, updateProcessingFail := false,
    shipFail := false, updateShippedFail := false, notifyFail := false,
    payId := "a1b2c3d4e", trackingNum := 123456 }

/-- The stub services with `getOrdersByUser` forced to succeed with an empty
list (the scenario of spec Scenario C, unreachable with the fixed stubs). -/
def emptyOrdersSvc : Services :=
  { svc allOk with getOrdersByUser := fun _ => .ok [] }

/-- Effect-layer services with `getOrdersByUser` forced to an empty list. -/
def emptyOrdersEffSvc : EffServices :=
  { effSvc allOk with getOrdersByUser := fun _ => .ok [] }

/-- The forced failure flags of the nine step occurrences, in declared order. -/
def StepOutcomes.flags (cfg : StepOutcomes) : List Bool :=
  [cfg.userFail, cfg.ordersFail, cfg.productFail, cfg.stockFail, cfg.payFail,
   cfg.updateProcessingFail, cfg.shipFail, cfg.updateShippedFail, cfg.notifyFail]

/-- The stub error messages of the nine step occurrences, in declared order. -/
def failMsgs : List String :=
  ["Database connection failed", "Failed to retrieve orders", "Product not found",
   "Inventory system error", "Payment processing failed",
   "Failed to update order status", "Shipping service unavailable",
   "Failed to update order status", "Email service down"]

/-- The Effect-layer tagged errors of the nine step occurrences, in declared
order (the wrapped messages produced by each `Effect.try` catch clause). -/
def effFailErrs : List OrderProcessingError :=
  [.databaseError "Failed to get user: DatabaseError: Database connection failed",
   .databaseError "Failed to get orders: DatabaseError: Failed to retrieve orders",
   .databaseError "Failed to get product: DatabaseError: Product not found",
   .inventoryError "Failed to check stock: InventoryError: Inventory system error",
   .paymentError "Failed to process payment: PaymentError: Payment processing failed",
   .databaseError "Failed to update order: DatabaseError: Failed to update order status",
   .shippingError "Failed to create shipment: ShippingError: Shipping service unavailable",
   .databaseError "Failed to update order: DatabaseError: Failed to update order status",
   .notificationError "Failed to send notification: NotificationError: Email service down"]

/-- The Effect-layer rendering of each callback-layer failure reason: the same
underlying failure, tagged, and — for the technical stub failures — wrapped by
the corresponding `Effect.try` catch clause. -/
def errCorr : String → OrderProcessingError
  | "Database connection failed" =>
      .databaseError "Failed to get user: DatabaseError: Database connection failed"
  | "Failed to retrieve orders" =>
      .databaseError "Failed to get orders: DatabaseError: Failed to retrieve orders"
  | "No orders found" => .databaseError "No orders found"
  | "Product not found" =>
      .databaseError "Failed to get product: DatabaseError: Product not found"
  | "Inventory system error" =>
      .inventoryError "Failed to check stock: InventoryError: Inventory system error"
  | "Product out of stock" => .inventoryError "Product out of stock"
  | "Payment processing failed" =>
      .paymentError "Failed to process payment: PaymentError: Payment processing failed"
  | "Failed to update order status" =>
      .databaseError "Failed to update order: DatabaseError: Failed to update order status"
  | "Shipping service unavailable" =>
      .shippingError "Failed to create shipment: ShippingError: Shipping service unavailable"
  | "Email service down" =>
      .notificationError "Failed to send notification: NotificationError: Email service down"
  | e => .databaseError e

/-- C10: on its success branch (no forced inventory-system error), the stock
check of every variant returns `product.stock >= quantity`: true exactly when
the stock covers the requested quantity, in particular when the quantity
equals the stock, and always for quantity zero. -/
theorem checkStock_stock_ge_quantity (cfg : StepOutcomes) (product : Product)
    (quantity : Nat) (h : cfg.stockFail = false) :
    (svc cfg).checkStock product quantity = .ok (decide (quantity ≤ product.stock))
    ∧ ((svc cfg).checkStock product quantity = .ok true ↔ quantity ≤ product.stock)
    ∧ (effSvc cfg).checkStock product quantity = .ok (decide (quantity ≤ product.stock))
    ∧ (svc cfg).checkStock product product.stock = .ok true
    ∧ (svc cfg).checkStock product 0 = .ok true := by
  simp [svc, effSvc, h]

/-- Witness for `checkStock_stock_ge_quantity` at the demo product (stock 10)
and quantity 2. -/
theorem checkStock_stock_ge_quantity_witness :
    (svc allOk).checkStock (stubProduct "prod1") 2 = .ok true ∧
    (svc allOk).checkStock (stubProduct "prod1") 11 = .ok false := by
  have h2 := (checkStock_stock_ge_quantity allOk (stubProduct "prod1") 2 rfl).2.1
  have h11 := (checkStock_stock_ge_quantity allOk (stubProduct "prod1") 11 rfl).1
  exact ⟨h2.mpr (by decide), by simpa using h11⟩

/-- C5: for every combination of per-step outcomes, the continuation-style
executor `processOrder` invokes its terminal handler `finalCallback` exactly
once — the recorded invocation list is a singleton — and the invocation's
argument is the run's outcome. -/
theorem finalCallback_exactly_once (S : Services) (userId productId : String)
    (quantity : Nat) (address : String) :
    processOrderCalls S userId productId quantity address =
      [processOrder S userId productId quantity address] := by
  simp only [processOrderCalls, processOrder, processOrderT]
  rcases h1 : S.getUserById userId with e | user
  · simp [h1]
  simp only [h1]
  rcases h2 : S.getOrdersByUser userId with e | orders
  · simp [h2]
  simp only [h2]
  rcases orders with _ | ⟨currentOrder, rest⟩
  · simp
  rcases h3 : S.getProductDetails productId with e | product
  · simp [h3]
  simp only [h3]
  rcases h4 : S.checkStock product quantity with e | isAvailable
  · simp [h4]
  simp only [h4]
  cases isAvailable
  · simp
  rcases h5 : S.processPayment currentOrder (product.price * quantity) with e | payment
  · simp [h5]
  simp only [h5]
  rcases h6 : S.updateOrderStatus currentOrder.id .processing with e | updatedOrder
  · simp [h6]
  simp only [h6]
  rcases h7 : S.createShipment updatedOrder address with e | shipping
  · simp [h7]
  simp only [h7]
  rcases h8 : S.updateOrderStatus updatedOrder.id .shipped with e | shippedOrder
  · simp [h8]
  simp only [h8]
  rcases h9 : S.sendOrderConfirmation user.email shippedOrder shipping with e | emailSent
  · simp [h9]
  simp only [h9]
  cases emailSent <;> simp

/-- C6: for every input and every combination of per-step outcomes, the
recovery boundary `processOrderWithErrorHandling` always succeeds, and each of
the five tagged error kinds is mapped to its recovered summary string. -/
theorem error_handling_never_fails (S : EffServices) (userId productId : String)
    (quantity : Nat) (address : String) :
    (∃ s, processOrderWithErrorHandling S userId productId quantity address = .ok s)
    ∧ (∀ m, processOrderModular S userId productId quantity address =
          .error (.databaseError m) →
        processOrderWithErrorHandling S userId productId quantity address =
          .ok ("Database error handled: " ++ m))
    ∧ (∀ m, processOrderModular S userId productId quantity address =
          .error (.paymentError m) →
        processOrderWithErrorHandling S userId productId quantity address =
          .ok ("Payment error handled: " ++ m))
    ∧ (∀ m, processOrderModular S userId productId quantity address =
          .error (.inventoryError m) →
        processOrderWithErrorHandling S userId productId quantity address =
          .ok ("Inventory error handled: " ++ m))
    ∧ (∀ m, processOrderModular S userId productId quantity address =
          .error (.shippingError m) →
        processOrderWithErrorHandling S userId productId quantity address =
          .ok ("Shipping error handled: " ++ m))
    ∧ (∀ m, processOrderModular S userId productId quantity address =
          .error (.notificationError m) →
        processOrderWithErrorHandling S userId productId quantity address =
          .ok ("Notification error handled: " ++ m)) := by
  unfold processOrderWithErrorHandling
  rcases hrun : processOrderModular S userId productId quantity address with e | s
  · rcases e with m | m | m | m | m <;>
      exact ⟨⟨_, rfl⟩, by simp, by simp, by simp, by simp, by simp [Except.isOk, Except.toBool]⟩
  · exact ⟨⟨_, rfl⟩, by simp, by simp, by simp, by simp, by simp [Except.isOk, Except.toBool]⟩

/-- Witness for `error_handling_never_fails`: a forced payment failure is
recovered into the payment summary string. -/
theorem error_handling_never_fails_witness :
    processOrderWithErrorHandling (effSvc { allOk with payFail := true })
      "user123" "prod1" 2 "123 Main St" =
    .ok "Payment error handled: Failed to process payment: PaymentError: Payment processing failed" := by
  have h := (error_handling_never_fails (effSvc { allOk with payFail := true })
    "user123" "prod1" 2 "123 Main St").2.2.1
  exact h _ rfl

/-- C7 counterexample: with all stubs succeeding and quantity 11 > stock 10,
the stock check returns `false` and the pipeline fails with reason
"Product out of stock" — not the claimed reason "out of stock". -/
theorem out_of_stock_reason_exact :
    (svc allOk).checkStock (stubProduct "prod1") 11 = .ok false
    ∧ processOrder (svc allOk) "user123" "prod1" 11 "123 Main St" =
        .error "Product out of stock"
    ∧ processOrder (svc allOk) "user123" "prod1" 11 "123 Main St" ≠
        .error "out of stock" := by
  refine ⟨rfl, rfl, ?_⟩
  intro h
  rw [show processOrder (svc allOk) "user123" "prod1" 11 "123 Main St" =
        Except.error "Product out of stock" from rfl] at h
  exact absurd (Except.error.inj h) (by decide)

/-- C7 amended: if the first three steps succeed and the stock check returns
`false`, every variant fails at the stock-check step with reason
"Product out of stock" (`InventoryError` in the Effect variants), and the
payment, status-update, shipment and notification steps are never invoked:
the trace stops at the stock check. -/
theorem stock_false_halts_at_checkStock
    (S : Services) (ES : EffServices) (userId productId : String)
    (quantity : Nat) (address : String)
    (u : User) (o : Order) (os : List Order) (p : Product)
    (u' : User) (o' : Order) (os' : List Order) (p' : Product)
    (h1 : S.getUserById userId = .ok u)
    (h2 : S.getOrdersByUser userId = .ok (o :: os))
    (h3 : S.getProductDetails productId = .ok p)
    (h4 : S.checkStock p quantity = .ok false)
    (g1 : ES.getUserById userId = .ok u')
    (g2 : ES.getOrdersByUser userId = .ok (o' :: os'))
    (g3 : ES.getProductDetails productId = .ok p')
    (g4 : ES.checkStock p' quantity = .ok false) :
    processOrderT S userId productId quantity address =
      (.error "Product out of stock",
       [.fetchUser userId, .fetchOrders userId, .fetchProduct productId,
        .checkStock p quantity])
    ∧ processOrderWithPromisesT S userId productId quantity address =
      (.error "Product out of stock",
       [.fetchUser userId, .fetchOrders userId, .fetchProduct productId,
        .checkStock p quantity])
    ∧ processOrderWithAsyncAwaitT S userId productId quantity address =
      (.error "Product out of stock",
       [.fetchUser userId, .fetchOrders userId, .fetchProduct productId,
        .checkStock p quantity])
    ∧ processOrderWithEffectGenT ES userId productId quantity address =
      (.error (.inventoryError "Product out of stock"),
       [.fetchUser userId, .fetchOrders userId, .fetchProduct productId,
        .checkStock p' quantity])
    ∧ processOrderWithPipeT ES userId productId quantity address =
      (.error (.inventoryError "Product out of stock"),
       [.fetchUser userId, .fetchOrders userId, .fetchProduct productId,
        .checkStock p' quantity]) :=
  ⟨by simp [processOrderT, h1, h2, h3, h4],
   by simp [processOrderWithPromisesT, h1, h2, h3, h4],
   by simp [processOrderWithAsyncAwaitT, h1, h2, h3, h4],
   by simp [processOrderWithEffectGenT, g1, g2, g3, g4],
   by simp [processOrderWithPipeT, g1, g2, g3, g4]⟩

/-- Witness for `stock_false_halts_at_checkStock`: the stubs with quantity 11. -/
theorem stock_false_halts_at_checkStock_witness :
    processOrderT (svc allOk) "user123" "prod1" 11 "123 Main St" =
      (.error "Product out of stock",
       [.fetchUser "user123", .fetchOrders "user123", .fetchProduct "prod1",
        .checkStock (stubProduct "prod1") 11]) :=
  (stock_false_halts_at_checkStock (svc allOk) (effSvc allOk)
    "user123" "prod1" 11 "123 Main St"
    (stubUser "user123") stubOrder [] (stubProduct "prod1")
    (stubUser "user123") stubOrder [] (stubProduct "prod1")
    rfl rfl rfl rfl rfl rfl rfl rfl).1

/-- C8 counterexample: forcing `getOrdersByUser` to succeed with the empty
list, the pipeline fails with reason "No orders found" — not the claimed
reason "no orders found". -/
theorem no_orders_reason_exact :
    emptyOrdersSvc.getOrdersByUser "user123" = .ok []
    ∧ processOrder emptyOrdersSvc "user123" "prod1" 2 "123 Main St" =
        .error "No orders found"
    ∧ processOrder emptyOrdersSvc "user123" "prod1" 2 "123 Main St" ≠
        .error "no orders found" := by
  refine ⟨rfl, rfl, ?_⟩
  intro h
  rw [show processOrder emptyOrdersSvc "user123" "prod1" 2 "123 Main St" =
        Except.error "No orders found" from rfl] at h
  exact absurd (Except.error.inj h) (by decide)

/-- C8 amended: if the user fetch succeeds and the orders fetch succeeds with
an empty list, every variant fails at the fetch-orders step with reason
"No orders found" (`DatabaseError` in the Effect variants) and no later step
is invoked: the trace stops at the orders fetch. -/
theorem empty_orders_halts_at_fetchOrders
    (S : Services) (ES : EffServices) (userId productId : String)
    (quantity : Nat) (address : String) (u u' : User)
    (h1 : S.getUserById userId = .ok u)
    (h2 : S.getOrdersByUser userId = .ok [])
    (g1 : ES.getUserById userId = .ok u')
    (g2 : ES.getOrdersByUser userId = .ok []) :
    processOrderT S userId productId quantity address =
      (.error "No orders found", [.fetchUser userId, .fetchOrders userId])
    ∧ processOrderWithPromisesT S userId productId quantity address =
      (.error "No orders found", [.fetchUser userId, .fetchOrders userId])
    ∧ processOrderWithAsyncAwaitT S userId productId quantity address =
      (.error "No orders found", [.fetchUser userId, .fetchOrders userId])
    ∧ processOrderWithEffectGenT ES userId productId quantity address =
      (.error (.databaseError "No orders found"),
       [.fetchUser userId, .fetchOrders userId])
    ∧ processOrderWithPipeT ES userId productId quantity address =
      (.error (.databaseError "No orders found"),
       [.fetchUser userId, .fetchOrders userId]) :=
  ⟨by simp [processOrderT, h1, h2],
   by simp [processOrderWithPromisesT, h1, h2],
   by simp [processOrderWithAsyncAwaitT, h1, h2],
   by simp [processOrderWithEffectGenT, g1, g2],
   by simp [processOrderWithPipeT, g1, g2]⟩

/-- Witness for `empty_orders_halts_at_fetchOrders`. -/
theorem empty_orders_halts_at_fetchOrders_witness :
    processOrderT emptyOrdersSvc "user123" "prod1" 2 "123 Main St" =
      (.error "No orders found", [.fetchUser "user123", .fetchOrders "user123"]) :=
  (empty_orders_halts_at_fetchOrders emptyOrdersSvc emptyOrdersEffSvc
    "user123" "prod1" 2 "123 Main St"
    (stubUser "user123") (stubUser "user123") rfl rfl rfl rfl).1

/-- C9: if the user, orders, product, stock, payment and first status-update
steps all succeed and the shipment step then fails, the run fails with the
shipment step's reason and the trace ends at the shipment call: no
compensating refund, no status rollback, and no further service call of any
kind is performed (the model has no mutable store, so the earlier payment and
status outputs are untouched by construction). -/
theorem ship_failure_no_compensation
    (S : Services) (ES : EffServices) (userId productId : String)
    (quantity : Nat) (address : String)
    (u : User) (o : Order) (os : List Order) (p : Product) (pay : Payment)
    (o2 : Order) (e : String)
    (u' : User) (o' : Order) (os' : List Order) (p' : Product) (pay' : Payment)
    (o2' : Order) (e' : OrderProcessingError)
    (h1 : S.getUserById userId = .ok u)
    (h2 : S.getOrdersByUser userId = .ok (o :: os))
    (h3 : S.getProductDetails productId = .ok p)
    (h4 : S.checkStock p quantity = .ok true)
    (h5 : S.processPayment o (p.price * quantity) = .ok pay)
    (h6 : S.updateOrderStatus o.id .processing = .ok o2)
    (h7 : S.createShipment o2 address = .error e)
    (g1 : ES.getUserById userId = .ok u')
    (g2 : ES.getOrdersByUser userId = .ok (o' :: os'))
    (g3 : ES.getProductDetails productId = .ok p')
    (g4 : ES.checkStock p' quantity = .ok true)
    (g5 : ES.processPayment o' (p'.price * quantity) = .ok pay')
    (g6 : ES.updateOrderStatus o'.id .processing = .ok o2')
    (g7 : ES.createShipment o2' address = .error e') :
    processOrderT S userId productId quantity address =
      (.error e,
       [.fetchUser userId, .fetchOrders userId, .fetchProduct productId,
        .checkStock p quantity, .pay o (p.price * quantity),
        .updateProcessing o.id, .ship o2 address])
    ∧ processOrderWithAsyncAwaitT S userId productId quantity address =
      (.error e,
       [.fetchUser userId, .fetchOrders userId, .fetchProduct productId,
        .checkStock p quantity, .pay o (p.price * quantity),
        .updateProcessing o.id, .ship o2 address])
    ∧ processOrderWithPipeT ES userId productId quantity address =
      (.error e',
       [.fetchUser userId, .fetchOrders userId, .fetchProduct productId,
        .checkStock p' quantity, .pay o' (p'.price * quantity),
        .updateProcessing o'.id, .ship o2' address]) :=
  ⟨by simp [processOrderT, h1, h2, h3, h4, h5, h6, h7],
   by simp [processOrderWithAsyncAwaitT, h1, h2, h3, h4, h5, h6, h7],
   by simp [processOrderWithPipeT, g1, g2, g3, g4, g5, g6, g7]⟩

/-- Witness for `ship_failure_no_compensation`: the stubs with the shipment
failure forced. -/
theorem ship_failure_no_compensation_witness :
    (processOrderT (svc { allOk with shipFail := true })
        "user123" "prod1" 2 "123 Main St").1 = .error "Shipping service unavailable" :=
  congrArg Prod.fst
    (ship_failure_no_compensation
      (svc { allOk with shipFail := true }) (effSvc { allOk with shipFail := true })
      "user123" "prod1" 2 "123 Main St"
      (stubUser "user123") stubOrder [] (stubProduct "prod1")
      ({ id := "pay_a1b2c3d4e", orderId := "order123", amount := 4999 * 2,
         status := "completed" } : Payment)
      ({ id := "order123", userId := "user123",
         products := [{ productId := "prod1", quantity := 2 }],
         status := .processing } : Order)
      "Shipping service unavailable"
      (stubUser "user123") stubOrder [] (stubProduct "prod1")
      ({ id := "pay_a1b2c3d4e", orderId := "order123", amount := 4999 * 2,
         status := "completed" } : Payment)
      ({ id := "order123", userId := "user123",
         products := [{ productId := "prod1", quantity := 2 }],
         status := .processing } : Order)
      (.shippingError
        "Failed to create shipment: ShippingError: Shipping service unavailable")
      rfl rfl rfl rfl rfl rfl rfl rfl rfl rfl rfl rfl rfl rfl).1

/-- C4: in every run of the callback and async/await variants the invocation
trace is a prefix of the declared nine-step order, the trace is the full
declared order exactly on runs reaching the last step, and on a full-success
run the trace is, call by call, the declared steps applied to arguments that
are projections of the outputs of the earlier steps only (the accumulated
context). -/
theorem steps_in_declared_order :
    (∀ (S : Services) (userId productId : String) (quantity : Nat) (address : String),
      ∃ k, k ≤ 9 ∧
        (processOrderT S userId productId quantity address).2.map StepCall.name =
          declaredOrder.take k ∧
        ((processOrderT S userId productId quantity address).1.isOk = true → k = 9))
    ∧ (∀ (S : Services) (userId productId : String) (quantity : Nat) (address : String),
      ∃ k, k ≤ 9 ∧
        (processOrderWithAsyncAwaitT S userId productId quantity address).2.map StepCall.name =
          declaredOrder.take k ∧
        ((processOrderWithAsyncAwaitT S userId productId quantity address).1.isOk = true → k = 9))
    ∧ (∀ (S : Services) (userId productId : String) (quantity : Nat) (address : String)
        (u : User) (o : Order) (os : List Order) (p : Product) (pay : Payment)
        (o2 : Order) (sh : ShippingDetails) (o3 : Order) (b : Bool),
      S.getUserById userId = .ok u →
      S.getOrdersByUser userId = .ok (o :: os) →
      S.getProductDetails productId = .ok p →
      S.checkStock p quantity = .ok true →
      S.processPayment o (p.price * quantity) = .ok pay →
      S.updateOrderStatus o.id .processing = .ok o2 →
      S.createShipment o2 address = .ok sh →
      S.updateOrderStatus o2.id .shipped = .ok o3 →
      S.sendOrderConfirmation u.email o3 sh = .ok b →
      (processOrderT S userId productId quantity address).2 =
        [.fetchUser userId, .fetchOrders userId, .fetchProduct productId,
         .checkStock p quantity, .pay o (p.price * quantity),
         .updateProcessing o.id, .ship o2 address, .updateShipped o2.id,
         .notify u.email o3 sh]
      ∧ (processOrderWithAsyncAwaitT S userId productId quantity address).2 =
        [.fetchUser userId, .fetchOrders userId, .fetchProduct productId,
         .checkStock p quantity, .pay o (p.price * quantity),
         .updateProcessing o.id, .ship o2 address, .updateShipped o2.id,
         .notify u.email o3 sh]) := by
  refine ⟨?_, ?_, ?_⟩
  · intro S userId productId quantity address
    simp only [processOrderT]
    rcases h1 : S.getUserById userId with e | user
    · exact ⟨1, by norm_num, by simp [h1, StepCall.name, declaredOrder], by simp [h1, Except.isOk, Except.toBool]⟩
    simp only [h1]
    rcases h2 : S.getOrdersByUser userId with e | orders
    · exact ⟨2, by norm_num, by simp [h2, StepCall.name, declaredOrder], by simp [h2, Except.isOk, Except.toBool]⟩
    simp only [h2]
    rcases orders with _ | ⟨currentOrder, rest⟩
    · exact ⟨2, by norm_num, by simp [StepCall.name, declaredOrder], by simp [Except.isOk, Except.toBool]⟩
    rcases h3 : S.getProductDetails productId with e | product
    · exact ⟨3, by norm_num, by simp [h3, StepCall.name, declaredOrder], by simp [h3, Except.isOk, Except.toBool]⟩
    simp only [h3]
    rcases h4 : S.checkStock product quantity with e | isAvailable
    · exact ⟨4, by norm_num, by simp [h4, StepCall.name, declaredOrder], by simp [h4, Except.isOk, Except.toBool]⟩
    simp only [h4]
    cases isAvailable
    · exact ⟨4, by norm_num, by simp [StepCall.name, declaredOrder], by simp [Except.isOk, Except.toBool]⟩
    rcases h5 : S.processPayment currentOrder (product.price * quantity) with e | payment
    · exact ⟨5, by norm_num, by simp [h5, StepCall.name, declaredOrder], by simp [h5, Except.isOk, Except.toBool]⟩
    simp only [h5]
    rcases h6 : S.updateOrderStatus currentOrder.id .processing with e | updatedOrder
    · exact ⟨6, by norm_num, by simp [h6, StepCall.name, declaredOrder], by simp [h6, Except.isOk, Except.toBool]⟩
    simp only [h6]
    rcases h7 : S.createShipment updatedOrder address with e | shipping
    · exact ⟨7, by norm_num, by simp [h7, StepCall.name, declaredOrder], by simp [h7, Except.isOk, Except.toBool]⟩
    simp only [h7]
    rcases h8 : S.updateOrderStatus updatedOrder.id .shipped with e | shippedOrder
    · exact ⟨8, by norm_num, by simp [h8, StepCall.name, declaredOrder], by simp [h8, Except.isOk, Except.toBool]⟩
    simp only [h8]
    rcases h9 : S.sendOrderConfirmation user.email shippedOrder shipping with e | emailSent
    · exact ⟨9, by norm_num, by simp [h9, StepCall.name, declaredOrder], by simp [h9, Except.isOk, Except.toBool]⟩
    simp only [h9]
    exact ⟨9, by norm_num, by simp [StepCall.name, declaredOrder], fun _ => rfl⟩
  · intro S userId productId quantity address
    simp only [processOrderWithAsyncAwaitT]
    rcases h1 : S.getUserById userId with e | user
    · exact ⟨1, by norm_num, by simp [h1, StepCall.name, declaredOrder], by simp [h1, Except.isOk, Except.toBool]⟩
    simp only [h1]
    rcases h2 : S.getOrdersByUser userId with e | orders
    · exact ⟨2, by norm_num, by simp [h2, StepCall.name, declaredOrder], by simp [h2, Except.isOk, Except.toBool]⟩
    simp only [h2]
    rcases orders with _ | ⟨currentOrder, rest⟩
    · exact ⟨2, by norm_num, by simp [StepCall.name, declaredOrder], by simp [Except.isOk, Except.toBool]⟩
    rcases h3 : S.getProductDetails productId with e | product
    · exact ⟨3, by norm_num, by simp [h3, StepCall.name, declaredOrder], by simp [h3, Except.isOk, Except.toBool]⟩
    simp only [h3]
    rcases h4 : S.checkStock product quantity with e | isAvailable
    · exact ⟨4, by norm_num, by simp [h4, StepCall.name, declaredOrder], by simp [h4, Except.isOk, Except.toBool]⟩
    simp only [h4]
    cases isAvailable
    · exact ⟨4, by norm_num, by simp [StepCall.name, declaredOrder], by simp [Except.isOk, Except.toBool]⟩
    rcases h5 : S.processPayment currentOrder (product.price * quantity) with e | payment
    · exact ⟨5, by norm_num, by simp [h5, StepCall.name, declaredOrder], by simp [h5, Except.isOk, Except.toBool]⟩
    simp only [h5]
    rcases h6 : S.updateOrderStatus currentOrder.id .processing with e | updatedOrder
    · exact ⟨6, by norm_num, by simp [h6, StepCall.name, declaredOrder], by simp [h6, Except.isOk, Except.toBool]⟩
    simp only [h6]
    rcases h7 : S.createShipment updatedOrder address with e | shipping
    · exact ⟨7, by norm_num, by simp [h7, StepCall.name, declaredOrder], by simp [h7, Except.isOk, Except.toBool]⟩
    simp only [h7]
    rcases h8 : S.updateOrderStatus updatedOrder.id .shipped with e | shippedOrder
    · exact ⟨8, by norm_num, by simp [h8, StepCall.name, declaredOrder], by simp [h8, Except.isOk, Except.toBool]⟩
    simp only [h8]
    rcases h9 : S.sendOrderConfirmation user.email shippedOrder shipping with e | emailSent
    · exact ⟨9, by norm_num, by simp [h9, StepCall.name, declaredOrder], by simp [h9, Except.isOk, Except.toBool]⟩
    simp only [h9]
    exact ⟨9, by norm_num, by simp [StepCall.name, declaredOrder], fun _ => rfl⟩
  · intro S userId productId quantity address u o os p pay o2 sh o3 b
      h1 h2 h3 h4 h5 h6 h7 h8 h9
    constructor
    · simp [processOrderT, h1, h2, h3, h4, h5, h6, h7, h8, h9]
    · simp [processOrderWithAsyncAwaitT, h1, h2, h3, h4, h5, h6, h7, h8, h9]

/-- Witness for `steps_in_declared_order`: with the all-success stubs the
recorded trace is the full declared order. -/
theorem steps_in_declared_order_witness :
    (processOrderT (svc allOk) "user123" "prod1" 2 "123 Main St").2.map StepCall.name =
      declaredOrder := by
  have h := steps_in_declared_order.2.2 (svc allOk) "user123" "prod1" 2 "123 Main St"
    _ _ _ _ _ _ _ _ _ rfl rfl rfl rfl rfl rfl rfl rfl rfl
  rw [h.1]
  rfl

/-- C2: if the steps before step `i` are configured to succeed and step `i` is
configured to fail, every variant's outcome is the failure of step `i` with
that step's reason, and the instrumented trace stops at step `i`: steps
`i+1..n` are never invoked.  (`quantity ≤ 10` is needed past the stock check,
whose business guard would otherwise stop the run first.) -/
theorem failing_step_halts_pipeline (cfg : StepOutcomes)
    (userId productId : String) (quantity : Nat) (address : String) (i : Fin 9)
    (hq : 4 ≤ i.val → quantity ≤ 10)
    (hprev : ∀ j : Fin 9, j < i → cfg.flags.getD j.val false = false)
    (hi : cfg.flags.getD i.val false = true) :
    processOrder (svc cfg) userId productId quantity address =
      .error (failMsgs.getD i.val "")
    ∧ (processOrderT (svc cfg) userId productId quantity address).2.map StepCall.name =
      declaredOrder.take (i.val + 1)
    ∧ processOrderWithPromises (svc cfg) userId productId quantity address =
      .error (failMsgs.getD i.val "")
    ∧ (processOrderWithPromisesT (svc cfg) userId productId quantity address).2.map StepCall.name =
      declaredOrder.take (i.val + 1)
    ∧ processOrderWithAsyncAwait (svc cfg) userId productId quantity address =
      .error (failMsgs.getD i.val "")
    ∧ (processOrderWithAsyncAwaitT (svc cfg) userId productId quantity address).2.map StepCall.name =
      declaredOrder.take (i.val + 1)
    ∧ processOrderWithEffectGen (effSvc cfg) userId productId quantity address =
      .error (effFailErrs.getD i.val (.databaseError ""))
    ∧ (processOrderWithEffectGenT (effSvc cfg) userId productId quantity address).2.map StepCall.name =
      declaredOrder.take (i.val + 1)
    ∧ processOrderWithPipe (effSvc cfg) userId productId quantity address =
      .error (effFailErrs.getD i.val (.databaseError ""))
    ∧ (processOrderWithPipeT (effSvc cfg) userId productId quantity address).2.map StepCall.name =
      declaredOrder.take (i.val + 1) := by
  fin_cases i
  · simp [StepOutcomes.flags] at hi
    simp [processOrder, processOrderT, processOrderWithPromises, processOrderWithPromisesT,
          processOrderWithAsyncAwait, processOrderWithAsyncAwaitT,
          processOrderWithEffectGen, processOrderWithEffectGenT,
          processOrderWithPipe, processOrderWithPipeT,
          svc, effSvc, stubUser, stubOrders, stubProduct,
          declaredOrder, StepCall.name, failMsgs, effFailErrs, hi]
  · simp [StepOutcomes.flags] at hi
    have e0 : cfg.userFail = false := by
      simpa [StepOutcomes.flags] using hprev 0 (by decide)
    simp [processOrder, processOrderT, processOrderWithPromises, processOrderWithPromisesT,
          processOrderWithAsyncAwait, processOrderWithAsyncAwaitT,
          processOrderWithEffectGen, processOrderWithEffectGenT,
          processOrderWithPipe, processOrderWithPipeT,
          svc, effSvc, stubUser, stubOrders, stubProduct,
          declaredOrder, StepCall.name, failMsgs, effFailErrs, e0, hi]
  · simp [StepOutcomes.flags] at hi
    have e0 : cfg.userFail = false := by
      simpa [StepOutcomes.flags] using hprev 0 (by decide)
    have e1 : cfg.ordersFail = false := by
      simpa [StepOutcomes.flags] using hprev 1 (by decide)
    simp [processOrder, processOrderT, processOrderWithPromises, processOrderWithPromisesT,
          processOrderWithAsyncAwait, processOrderWithAsyncAwaitT,
          processOrderWithEffectGen, processOrderWithEffectGenT,
          processOrderWithPipe, processOrderWithPipeT,
          svc, effSvc, stubUser, stubOrders, stubProduct,
          declaredOrder, StepCall.name, failMsgs, effFailErrs, e0, e1, hi]
  · simp [StepOutcomes.flags] at hi
    have e0 : cfg.userFail = false := by
      simpa [StepOutcomes.flags] using hprev 0 (by decide)
    have e1 : cfg.ordersFail = false := by
      simpa [StepOutcomes.flags] using hprev 1 (by decide)
    have e2 : cfg.productFail = false := by
      simpa [StepOutcomes.flags] using hprev 2 (by decide)
    simp [processOrder, processOrderT, processOrderWithPromises, processOrderWithPromisesT,
          processOrderWithAsyncAwait, processOrderWithAsyncAwaitT,
          processOrderWithEffectGen, processOrderWithEffectGenT,
          processOrderWithPipe, processOrderWithPipeT,
          svc, effSvc, stubUser, stubOrders, stubProduct,
          declaredOrder, StepCall.name, failMsgs, effFailErrs, e0, e1, e2, hi]
  · simp [StepOutcomes.flags] at hi
    have e0 : cfg.userFail = false := by
      simpa [StepOutcomes.flags] using hprev 0 (by decide)
    have e1 : cfg.ordersFail = false := by
      simpa [StepOutcomes.flags] using hprev 1 (by decide)
    have e2 : cfg.productFail = false := by
      simpa [StepOutcomes.flags] using hprev 2 (by decide)
    have e3 : cfg.stockFail = false := by
      simpa [StepOutcomes.flags] using hprev 3 (by decide)
    have hdec : decide (quantity ≤ 10) = true := decide_eq_true (hq (by decide))
    simp [processOrder, processOrderT, processOrderWithPromises, processOrderWithPromisesT,
          processOrderWithAsyncAwait, processOrderWithAsyncAwaitT,
          processOrderWithEffectGen, processOrderWithEffectGenT,
          processOrderWithPipe, processOrderWithPipeT,
          svc, effSvc, stubUser, stubOrders, stubProduct,
          declaredOrder, StepCall.name, failMsgs, effFailErrs, e0, e1, e2, e3, hdec, hi]
  · simp [StepOutcomes.flags] at hi
    have e0 : cfg.userFail = false := by
      simpa [StepOutcomes.flags] using hprev 0 (by decide)
    have e1 : cfg.ordersFail = false := by
      simpa [StepOutcomes.flags] using hprev 1 (by decide)
    have e2 : cfg.productFail = false := by
      simpa [StepOutcomes.flags] using hprev 2 (by decide)
    have e3 : cfg.stockFail = false := by
      simpa [StepOutcomes.flags] using hprev 3 (by decide)
    have e4 : cfg.payFail = false := by
      simpa [StepOutcomes.flags] using hprev 4 (by decide)
    have hdec : decide (quantity ≤ 10) = true := decide_eq_true (hq (by decide))
    simp [processOrder, processOrderT, processOrderWithPromises, processOrderWithPromisesT,
          processOrderWithAsyncAwait, processOrderWithAsyncAwaitT,
          processOrderWithEffectGen, processOrderWithEffectGenT,
          processOrderWithPipe, processOrderWithPipeT,
          svc, effSvc, stubUser, stubOrders, stubProduct,
          declaredOrder, StepCall.name, failMsgs, effFailErrs, e0, e1, e2, e3, e4, hdec, hi]
  · simp [StepOutcomes.flags] at hi
    have e0 : cfg.userFail = false := by
      simpa [StepOutcomes.flags] using hprev 0 (by decide)
    have e1 : cfg.ordersFail = false := by
      simpa [StepOutcomes.flags] using hprev 1 (by decide)
    have e2 : cfg.productFail = false := by
      simpa [StepOutcomes.flags] using hprev 2 (by decide)
    have e3 : cfg.stockFail = false := by
      simpa [StepOutcomes.flags] using hprev 3 (by decide)
    have e4 : cfg.payFail = false := by
      simpa [StepOutcomes.flags] using hprev 4 (by decide)
    have e5 : cfg.updateProcessingFail = false := by
      simpa [StepOutcomes.flags] using hprev 5 (by decide)
    have hdec : decide (quantity ≤ 10) = true := decide_eq_true (hq (by decide))
    simp [processOrder, processOrderT, processOrderWithPromises, processOrderWithPromisesT,
          processOrderWithAsyncAwait, processOrderWithAsyncAwaitT,
          processOrderWithEffectGen, processOrderWithEffectGenT,
          processOrderWithPipe, processOrderWithPipeT,
          svc, effSvc, stubUser, stubOrders, stubProduct,
          declaredOrder, StepCall.name, failMsgs, effFailErrs, e0, e1, e2, e3, e4, e5, hdec, hi]
  · simp [StepOutcomes.flags] at hi
    have e0 : cfg.userFail = false := by
      simpa [StepOutcomes.flags] using hprev 0 (by decide)
    have e1 : cfg.ordersFail = false := by
      simpa [StepOutcomes.flags] using hprev 1 (by decide)
    have e2 : cfg.productFail = false := by
      simpa [StepOutcomes.flags] using hprev 2 (by decide)
    have e3 : cfg.stockFail = false := by
      simpa [StepOutcomes.flags] using hprev 3 (by decide)
    have e4 : cfg.payFail = false := by
      simpa [StepOutcomes.flags] using hprev 4 (by decide)
    have e5 : cfg.updateProcessingFail = false := by
      simpa [StepOutcomes.flags] using hprev 5 (by decide)
    have e6 : cfg.shipFail = false := by
      simpa [StepOutcomes.flags] using hprev 6 (by decide)
    have hdec : decide (quantity ≤ 10) = true := decide_eq_true (hq (by decide))
    simp [processOrder, processOrderT, processOrderWithPromises, processOrderWithPromisesT,
          processOrderWithAsyncAwait, processOrderWithAsyncAwaitT,
          processOrderWithEffectGen, processOrderWithEffectGenT,
          processOrderWithPipe, processOrderWithPipeT,
          svc, effSvc, stubUser, stubOrders, stubProduct,
          declaredOrder, StepCall.name, failMsgs, effFailErrs,
          e0, e1, e2, e3, e4, e5, e6, hdec, hi]
  · simp [StepOutcomes.flags] at hi
    have e0 : cfg.userFail = false := by
      simpa [StepOutcomes.flags] using hprev 0 (by decide)
    have e1 : cfg.ordersFail = false := by
      simpa [StepOutcomes.flags] using hprev 1 (by decide)
    have e2 : cfg.productFail = false := by
      simpa [StepOutcomes.flags] using hprev 2 (by decide)
    have e3 : cfg.stockFail = false := by
      simpa [StepOutcomes.flags] using hprev 3 (by decide)
    have e4 : cfg.payFail = false := by
      simpa [StepOutcomes.flags] using hprev 4 (by decide)
    have e5 : cfg.updateProcessingFail = false := by
      simpa [StepOutcomes.flags] using hprev 5 (by decide)
    have e6 : cfg.shipFail = false := by
      simpa [StepOutcomes.flags] using hprev 6 (by decide)
    have e7 : cfg.updateShippedFail = false := by
      simpa [StepOutcomes.flags] using hprev 7 (by decide)
    have hdec : decide (quantity ≤ 10) = true := decide_eq_true (hq (by decide))
    simp [processOrder, processOrderT, processOrderWithPromises, processOrderWithPromisesT,
          processOrderWithAsyncAwait, processOrderWithAsyncAwaitT,
          processOrderWithEffectGen, processOrderWithEffectGenT,
          processOrderWithPipe, processOrderWithPipeT,
          svc, effSvc, stubUser, stubOrders, stubProduct,
          declaredOrder, StepCall.name, failMsgs, effFailErrs,
          e0, e1, e2, e3, e4, e5, e6, e7, hdec, hi]

/-- Witness for `failing_step_halts_pipeline`: the shipment step (index 6)
forced to fail with the stubs. -/
theorem failing_step_halts_pipeline_witness :
    processOrder (svc { allOk with shipFail := true }) "user123" "prod1" 2 "123 Main St" =
      .error "Shipping service unavailable"
    ∧ (processOrderT (svc { allOk with shipFail := true })
        "user123" "prod1" 2 "123 Main St").2.map StepCall.name =
      declaredOrder.take 7 := by
  have h := failing_step_halts_pipeline { allOk with shipFail := true }
    "user123" "prod1" 2 "123 Main St" 6 (fun _ => by norm_num) (by decide) (by decide)
  exact ⟨h.1, h.2.1⟩

/-- Folding the literal parts of the tracking suffix. -/
theorem trkAppend (r : String) :
    " with tracking number " ++ ("TRK" ++ r) = " with tracking number TRK" ++ r := rfl

/-- C1 counterexample: with every step forced to succeed, the callback variant
and the Effect generator variant disagree on the success value — the Effect
variant appends the tracking clause, the callback variant does not. -/
theorem effect_variant_success_differs :
    (processOrder (svc allOk) "user123" "prod1" 2 "123 Main St").toOption ≠
    (processOrderWithEffectGen (effSvc allOk) "user123" "prod1" 2 "123 Main St").toOption := by
  intro h
  rw [show (processOrder (svc allOk) "user123" "prod1" 2 "123 Main St").toOption =
        some "Order order123 processed successfully and shipped to 123 Main St" from rfl,
      show (processOrderWithEffectGen (effSvc allOk) "user123" "prod1" 2 "123 Main St").toOption =
        some "Order order123 processed successfully and shipped to 123 Main St with tracking number TRK123456" from rfl] at h
  exact absurd (Option.some.inj h) (by decide)

/-- C1 amended: for every fixed sequence of forced step outcomes, the
callback, promise-chain and async/await variants produce identical outcomes
and identical traces; the two Effect variants are identical; the Effect and
callback groups record the same trace; and the runs correspond exactly — a
failure in one group is the same failure in the other, rendered by the Effect
layer through `errCorr` (same step and underlying reason, tagged and, for
technical failures, wrapped), while a full success yields the same string with
the Effect variants appending the tracking clause. -/
theorem variants_agree_up_to_tracking (cfg : StepOutcomes)
    (userId productId : String) (quantity : Nat) (address : String) :
    processOrderT (svc cfg) userId productId quantity address =
      processOrderWithPromisesT (svc cfg) userId productId quantity address
    ∧ processOrderWithPromisesT (svc cfg) userId productId quantity address =
      processOrderWithAsyncAwaitT (svc cfg) userId productId quantity address
    ∧ processOrderWithEffectGenT (effSvc cfg) userId productId quantity address =
      processOrderWithPipeT (effSvc cfg) userId productId quantity address
    ∧ (processOrderWithEffectGenT (effSvc cfg) userId productId quantity address).2 =
      (processOrderT (svc cfg) userId productId quantity address).2
    ∧ ((∃ s, (processOrderT (svc cfg) userId productId quantity address).1 = .ok s
          ∧ (processOrderWithEffectGenT (effSvc cfg) userId productId quantity address).1 =
              .ok (s ++ " with tracking number TRK" ++ Nat.repr cfg.trackingNum))
       ∨ (∃ e, (processOrderT (svc cfg) userId productId quantity address).1 = .error e
          ∧ (processOrderWithEffectGenT (effSvc cfg) userId productId quantity address).1 =
              .error (errCorr e))) := by
  suffices h :
      processOrderT (svc cfg) userId productId quantity address =
        processOrderWithPromisesT (svc cfg) userId productId quantity address
      ∧ (processOrderWithEffectGenT (effSvc cfg) userId productId quantity address).2 =
        (processOrderT (svc cfg) userId productId quantity address).2
      ∧ ((∃ s, (processOrderT (svc cfg) userId productId quantity address).1 = .ok s
            ∧ (processOrderWithEffectGenT (effSvc cfg) userId productId quantity address).1 =
                .ok (s ++ " with tracking number TRK" ++ Nat.repr cfg.trackingNum))
         ∨ (∃ e, (processOrderT (svc cfg) userId productId quantity address).1 = .error e
            ∧ (processOrderWithEffectGenT (effSvc cfg) userId productId quantity address).1 =
                .error (errCorr e))) by
    exact ⟨h.1, rfl, rfl, h.2.1, h.2.2⟩
  cases huf : cfg.userFail
  case true =>
    exact ⟨by simp [processOrderT, processOrderWithPromisesT, svc, huf],
      by simp [processOrderT, processOrderWithEffectGenT, svc, effSvc, huf],
      Or.inr ⟨"Database connection failed",
        by simp [processOrderT, svc, huf],
        by simp [processOrderWithEffectGenT, effSvc, errCorr, huf]⟩⟩
  cases hof : cfg.ordersFail
  case true =>
    exact ⟨by simp [processOrderT, processOrderWithPromisesT, svc, stubUser, huf, hof],
      by simp [processOrderT, processOrderWithEffectGenT, svc, effSvc, stubUser, huf, hof],
      Or.inr ⟨"Failed to retrieve orders",
        by simp [processOrderT, svc, stubUser, huf, hof],
        by simp [processOrderWithEffectGenT, effSvc, stubUser, errCorr, huf, hof]⟩⟩
  cases hpf : cfg.productFail
  case true =>
    exact ⟨by simp [processOrderT, processOrderWithPromisesT, svc, stubUser, stubOrders,
            huf, hof, hpf],
      by simp [processOrderT, processOrderWithEffectGenT, svc, effSvc, stubUser, stubOrders,
            huf, hof, hpf],
      Or.inr ⟨"Product not found",
        by simp [processOrderT, svc, stubUser, stubOrders, huf, hof, hpf],
        by simp [processOrderWithEffectGenT, effSvc, stubUser, stubOrders, errCorr,
              huf, hof, hpf]⟩⟩
  cases hsf : cfg.stockFail
  case true =>
    exact ⟨by simp [processOrderT, processOrderWithPromisesT, svc, stubUser, stubOrders,
            stubProduct, huf, hof, hpf, hsf],
      by simp [processOrderT, processOrderWithEffectGenT, svc, effSvc, stubUser, stubOrders,
            stubProduct, huf, hof, hpf, hsf],
      Or.inr ⟨"Inventory system error",
        by simp [processOrderT, svc, stubUser, stubOrders, stubProduct, huf, hof, hpf, hsf],
        by simp [processOrderWithEffectGenT, effSvc, stubUser, stubOrders, stubProduct,
              errCorr, huf, hof, hpf, hsf]⟩⟩
  cases hq : decide (quantity ≤ 10)
  case false =>
    exact ⟨by simp [processOrderT, processOrderWithPromisesT, svc, stubUser, stubOrders,
            stubProduct, huf, hof, hpf, hsf, hq],
      by simp [processOrderT, processOrderWithEffectGenT, svc, effSvc, stubUser, stubOrders,
            stubProduct, huf, hof, hpf, hsf, hq],
      Or.inr ⟨"Product out of stock",
        by simp [processOrderT, svc, stubUser, stubOrders, stubProduct, huf, hof, hpf, hsf, hq],
        by simp [processOrderWithEffectGenT, effSvc, stubUser, stubOrders, stubProduct,
              errCorr, huf, hof, hpf, hsf, hq]⟩⟩
  cases hpayf : cfg.payFail
  case true =>
    exact ⟨by simp [processOrderT, processOrderWithPromisesT, svc, stubUser, stubOrders,
            stubProduct, huf, hof, hpf, hsf, hq, hpayf],
      by simp [processOrderT, processOrderWithEffectGenT, svc, effSvc, stubUser, stubOrders,
            stubProduct, huf, hof, hpf, hsf, hq, hpayf],
      Or.inr ⟨"Payment processing failed",
        by simp [processOrderT, svc, stubUser, stubOrders, stubProduct,
              huf, hof, hpf, hsf, hq, hpayf],
        by simp [processOrderWithEffectGenT, effSvc, stubUser, stubOrders, stubProduct,
              errCorr, huf, hof, hpf, hsf, hq, hpayf]⟩⟩
  cases hupf : cfg.updateProcessingFail
  case true =>
    exact ⟨by simp [processOrderT, processOrderWithPromisesT, svc, stubUser, stubOrders,
            stubProduct, huf, hof, hpf, hsf, hq, hpayf, hupf],
      by simp [processOrderT, processOrderWithEffectGenT, svc, effSvc, stubUser, stubOrders,
            stubProduct, huf, hof, hpf, hsf, hq, hpayf, hupf],
      Or.inr ⟨"Failed to update order status",
        by simp [processOrderT, svc, stubUser, stubOrders, stubProduct,
              huf, hof, hpf, hsf, hq, hpayf, hupf],
        by simp [processOrderWithEffectGenT, effSvc, stubUser, stubOrders, stubProduct,
              errCorr, huf, hof, hpf, hsf, hq, hpayf, hupf]⟩⟩
  cases hshf : cfg.shipFail
  case true =>
    exact ⟨by simp [processOrderT, processOrderWithPromisesT, svc, stubUser, stubOrders,
            stubProduct, huf, hof, hpf, hsf, hq, hpayf, hupf, hshf],
      by simp [processOrderT, processOrderWithEffectGenT, svc, effSvc, stubUser, stubOrders,
            stubProduct, huf, hof, hpf, hsf, hq, hpayf, hupf, hshf],
      Or.inr ⟨"Shipping service unavailable",
        by simp [processOrderT, svc, stubUser, stubOrders, stubProduct,
              huf, hof, hpf, hsf, hq, hpayf, hupf, hshf],
        by simp [processOrderWithEffectGenT, effSvc, stubUser, stubOrders, stubProduct,
              errCorr, huf, hof, hpf, hsf, hq, hpayf, hupf, hshf]⟩⟩
  cases husf : cfg.updateShippedFail
  case true =>
    exact ⟨by simp [processOrderT, processOrderWithPromisesT, svc, stubUser, stubOrders,
            stubProduct, huf, hof, hpf, hsf, hq, hpayf, hupf, hshf, husf],
      by simp [processOrderT, processOrderWithEffectGenT, svc, effSvc, stubUser, stubOrders,
            stubProduct, huf, hof, hpf, hsf, hq, hpayf, hupf, hshf, husf],
      Or.inr ⟨"Failed to update order status",
        by simp [processOrderT, svc, stubUser, stubOrders, stubProduct,
              huf, hof, hpf, hsf, hq, hpayf, hupf, hshf, husf],
        by simp [processOrderWithEffectGenT, effSvc, stubUser, stubOrders, stubProduct,
              errCorr, huf, hof, hpf, hsf, hq, hpayf, hupf, hshf, husf]⟩⟩
  cases hnf : cfg.notifyFail
  case true =>
    exact ⟨by simp [processOrderT, processOrderWithPromisesT, svc, stubUser, stubOrders,
            stubProduct, huf, hof, hpf, hsf, hq, hpayf, hupf, hshf, husf, hnf],
      by simp [processOrderT, processOrderWithEffectGenT, svc, effSvc, stubUser, stubOrders,
            stubProduct, huf, hof, hpf, hsf, hq, hpayf, hupf, hshf, husf, hnf],
      Or.inr ⟨"Email service down",
        by simp [processOrderT, svc, stubUser, stubOrders, stubProduct,
              huf, hof, hpf, hsf, hq, hpayf, hupf, hshf, husf, hnf],
        by simp [processOrderWithEffectGenT, effSvc, stubUser, stubOrders, stubProduct,
              errCorr, huf, hof, hpf, hsf, hq, hpayf, hupf, hshf, husf, hnf]⟩⟩
  case false =>
    refine ⟨by simp [processOrderT, processOrderWithPromisesT, svc, stubUser, stubOrders,
        stubProduct, huf, hof, hpf, hsf, hq, hpayf, hupf, hshf, husf, hnf],
      by simp [processOrderT, processOrderWithEffectGenT, svc, effSvc, stubUser, stubOrders,
        stubProduct, trackingStr, huf, hof, hpf, hsf, hq, hpayf, hupf, hshf, husf, hnf],
      Or.inl ⟨"Order order123 processed successfully and shipped to " ++ address,
        by simp [processOrderT, svc, stubUser, stubOrders, stubProduct,
          huf, hof, hpf, hsf, hq, hpayf, hupf, hshf, husf, hnf], ?_⟩⟩
    simp [processOrderWithEffectGenT, effSvc, stubUser, stubOrders, stubProduct, trackingStr,
      String.append_assoc, trkAppend, huf, hof, hpf, hsf, hq, hpayf, hupf, hshf, husf, hnf]

/-- C3 counterexample: with every stub succeeding, the callback variant's
success string has no tracking-number clause: it is not of the claimed form
for any tracking digits. -/
theorem callback_success_lacks_tracking :
    processOrder (svc allOk) "user123" "prod1" 2 "123 Main St" =
      .ok "Order order123 processed successfully and shipped to 123 Main St"
    ∧ ¬ ∃ n : Nat,
        processOrder (svc allOk) "user123" "prod1" 2 "123 Main St" =
          .ok ("Order order123 processed successfully and shipped to 123 Main St with tracking number TRK"
            ++ Nat.repr n) := by
  refine ⟨rfl, ?_⟩
  rintro ⟨n, h⟩
  rw [show processOrder (svc allOk) "user123" "prod1" 2 "123 Main St" =
        .ok "Order order123 processed successfully and shipped to 123 Main St" from rfl] at h
  have h2 := congrArg String.length (Except.ok.inj h)
  rw [String.length_append] at h2
  rw [show ("Order order123 processed successfully and shipped to 123 Main St" : String).length =
        64 from rfl,
      show ("Order order123 processed successfully and shipped to 123 Main St with tracking number TRK" : String).length =
        89 from rfl] at h2
  omega

/-- C3 amended: with every stub succeeding, the callback, promise and
async/await variants return the confirmation string without a tracking clause,
while the Effect generator, pipe and modular variants return the same string
extended with " with tracking number TRK" followed by the decimal digits of
the forced tracking number. -/
theorem all_success_confirmation_strings (payId : String) (n : Nat) :
    processOrder (svc { allOk with payId := payId, trackingNum := n })
        "user123" "prod1" 2 "123 Main St" =
      .ok "Order order123 processed successfully and shipped to 123 Main St"
    ∧ processOrderWithPromises (svc { allOk with payId := payId, trackingNum := n })
        "user123" "prod1" 2 "123 Main St" =
      .ok "Order order123 processed successfully and shipped to 123 Main St"
    ∧ processOrderWithAsyncAwait (svc { allOk with payId := payId, trackingNum := n })
        "user123" "prod1" 2 "123 Main St" =
      .ok "Order order123 processed successfully and shipped to 123 Main St"
    ∧ processOrderWithEffectGen (effSvc { allOk with payId := payId, trackingNum := n })
        "user123" "prod1" 2 "123 Main St" =
      .ok ("Order order123 processed successfully and shipped to 123 Main St with tracking number TRK"
        ++ Nat.repr n)
    ∧ processOrderWithPipe (effSvc { allOk with payId := payId, trackingNum := n })
        "user123" "prod1" 2 "123 Main St" =
      .ok ("Order order123 processed successfully and shipped to 123 Main St with tracking number TRK"
        ++ Nat.repr n)
    ∧ processOrderModular (effSvc { allOk with payId := payId, trackingNum := n })
        "user123" "prod1" 2 "123 Main St" =
      .ok ("Order order123 processed successfully and shipped to 123 Main St with tracking number TRK"
        ++ Nat.repr n) :=
  ⟨rfl, rfl, rfl, rfl, rfl, rfl⟩

end AsyncEvolution
